import Mathlib

/-!
# Verification of the Gemini streaming response relay

A shallow embedding of `src/api/model_gemini_service.go` (package `main` of the
chat backend): the endpoint resolver (`buildAPIURL` over `os.ExpandEnv`), the
single-shot response handler (`handleRegularResponse`), the streaming response
handler (`handleStreamResponse`), the orchestrating `Stream` method, and the
auxiliary title-generation flow (`GenerateChatTitle`).

External collaborators (the HTTP transport, `json.Unmarshal`, the
`gemini` payload/parse helpers) are modelled as explicit oracle parameters:
the embedded functions receive the outcome of each external call as an input
and reproduce the Go control flow over those outcomes.  Go panics (slice
index out of range, nil pointer dereference) are modelled explicitly by the
`GoResult` type, since several claims turn on whether the code can crash.
-/

namespace GeminiService

/-- Result of running a piece of Go code that can panic. -/
inductive GoResult (α : Type) where
  | ok : α → GoResult α
  | panic : String → GoResult α
deriving Repr, DecidableEq

/-- Model of `models.LLMAnswer` (fields used by this file: `Answer`, `AnswerId`). -/
structure LLMAnswer where
  Answer : String
  AnswerId : String
deriving Repr, DecidableEq

/-- Modelled from the spec: `APIError` (§7 RelayError) — an error value carrying
an HTTP code, a stable kind code, a human message set by `WithMessage`, and an
optional debug detail set by `WithDebugInfo`.  The constructors used by the
source (`ErrInternalUnexpected`, `ErrValidationInvalidInput`, the literal
`APIError{...}` for stream-unsupported) live outside `src/`. -/
structure APIError where
  httpCode : Nat
  code : String
  message : String
  debugInfo : String
deriving Repr, DecidableEq

/-- Modelled from the spec: the `ErrInternalUnexpected` base error value
(internal/unexpected kind) whose message and debug detail the source fills in. -/
def ErrInternalUnexpected : APIError :=
  { httpCode := 500, code := "INTERNAL_UNEXPECTED", message := "", debugInfo := "" }

/-- Method `(*APIError).WithMessage`: replace the human message. -/
def APIError.WithMessage (e : APIError) (m : String) : APIError :=
  { e with message := m }

/-- Method `(*APIError).WithDebugInfo`: replace the debug detail. -/
def APIError.WithDebugInfo (e : APIError) (d : String) : APIError :=
  { e with debugInfo := d }

/-- Modelled from the spec: `ErrValidationInvalidInput` (validation kind,
§7 `ValidationInvalidInput`), distinguished from the internal kind by its code. -/
def ErrValidationInvalidInput (m : String) : APIError :=
  { httpCode := 400, code := "VALIDATION_INVALID_INPUT", message := m, debugInfo := "" }

/-- The `APIError` literal built in `handleStreamResponse` when the response
writer is not an `http.Flusher`. -/
def streamUnsupportedError : APIError :=
  { httpCode := 500, code := "STREAM_UNSUPPORTED",
    message := "Streaming unsupported by client", debugInfo := "" }

/-! ## os.ExpandEnv and buildAPIURL -/

/-- Characters of a shell variable name (`os.ExpandEnv` name run):
letters, digits and underscore. -/
def isAlphaNumChar (c : Char) : Bool :=
  c = '_' || c.isAlpha || ('0' ≤ c && c ≤ '9')

/-- Split a character list into its longest leading run of shell-name
characters and the rest. -/
def spanName : List Char → List Char × List Char
  | [] => ([], [])
  | c :: cs =>
    if isAlphaNumChar c then
      let p := spanName cs
      (c :: p.1, p.2)
    else ([], c :: cs)

/-- Split a character list at each `$`: the run before the first `$`, and one
segment for the text following each `$`. -/
def splitOnDollar : List Char → List Char × List (List Char)
  | [] => ([], [])
  | c :: cs =>
    let p := splitOnDollar cs
    if c = '$' then ([], p.1 :: p.2) else (c :: p.1, p.2)

/-- Expansion of one segment that follows a `$`: substitute the environment
value of the leading shell name if there is one, otherwise keep the `$`
literally. -/
def expandAfterDollar (env : String → String) (seg : List Char) : List Char :=
  let p := spanName seg
  if p.1.isEmpty then '$' :: seg
  else (env (String.mk p.1)).toList ++ p.2

/-- Modelled from `os.ExpandEnv` (Go standard library, external): replace each
`$NAME` (plain alphanumeric name form — the only form occurring in the two URL
templates of `buildAPIURL`) with the environment value of `NAME`; a `$` not
followed by a name character is kept literally; substituted values are not
rescanned. -/
def expandEnv (env : String → String) (s : String) : String :=
  let p := splitOnDollar s.toList
  String.mk (p.1 ++ (p.2.map (expandAfterDollar env)).flatten)

/-- Function `buildAPIURL`: format the single-shot or streaming endpoint URL with the
`$GEMINI_API_KEY` placeholder, then expand environment variables.  It always
returns a URL string: a missing key expands to the empty string; the function
has no refusal path. -/
def buildAPIURL (env : String → String) (model : String) (stream : Bool) : String :=
  if stream then
    expandEnv env
      ("https://generativelanguage.googleapis.com/v1beta/models/" ++ model ++
        ":streamGenerateContent?alt=sse&key=$GEMINI_API_KEY")
  else
    expandEnv env
      ("https://generativelanguage.googleapis.com/v1beta/models/" ++ model ++
        ":generateContent?key=$GEMINI_API_KEY")

/-! ## The single-shot path: handleRegularResponse -/

/-- Model of the `gemini.ResponseBody` envelope part (external `gemini` package), used by
the source: `geminiResp.Candidates[0].Content.Parts[0].Text`. -/
structure ResponsePart where
  Text : String
deriving Repr, DecidableEq

/-- Model of the `gemini.ResponseBody` content node. -/
structure ResponseContent where
  Parts : List ResponsePart
deriving Repr, DecidableEq

/-- Model of the `gemini.ResponseBody` candidate node. -/
structure ResponseCandidate where
  Content : ResponseContent
deriving Repr, DecidableEq

/-- Model of `gemini.ResponseBody`: the decoded JSON envelope of a single-shot reply. -/
structure ResponseBody where
  Candidates : List ResponseCandidate
deriving Repr, DecidableEq

/-- The Go expression `geminiResp.Candidates[0].Content.Parts[0].Text`:
both slice indexings panic when the slice is empty. -/
def extractFirstText (rb : ResponseBody) : GoResult String :=
  match rb.Candidates with
  | [] => .panic "runtime error: index out of range [0] with length 0"
  | c :: _ =>
    match c.Content.Parts with
    | [] => .panic "runtime error: index out of range [0] with length 0"
    | p :: _ => .ok p.Text

/-- Outcome of `client.Do(req)` followed by reading the body
(`io.ReadAll`), supplied as an oracle: either the request failed with an error
text, or a response with a status code arrived whose body read yielded
`bodyBytes` and possibly a read error. -/
inductive TransportResult where
  | doError (errText : String)
  | response (statusCode : Nat) (bodyBytes : String) (bodyErr : Option String)
deriving Repr, DecidableEq

/-- Function `handleRegularResponse`, with the transport outcome and
the `json.Unmarshal` decoder supplied as oracles.  Mirrors the source branch
for branch: transport error, non-200 status (body retained as debug detail),
body read error, JSON decode error, then the unguarded
`Candidates[0].Content.Parts[0].Text` extraction (which panics on an empty
slice), then the `answer == ""` emptiness check (untrimmed). -/
def handleRegularResponse (decode : String → Except String ResponseBody)
    (t : TransportResult) : GoResult (Option LLMAnswer × Option APIError) :=
  match t with
  | .doError e =>
    .ok (none, some ((ErrInternalUnexpected.WithMessage
      "Failed to send Gemini API request").WithDebugInfo e))
  | .response statusCode bodyBytes bodyErr =>
    if statusCode ≠ 200 then
      .ok (none, some ((ErrInternalUnexpected.WithMessage
        ("Gemini API error: " ++ toString statusCode)).WithDebugInfo bodyBytes))
    else
      match bodyErr with
      | some e =>
        .ok (none, some ((ErrInternalUnexpected.WithMessage
          "Failed to read Gemini response").WithDebugInfo e))
      | none =>
        match decode bodyBytes with
        | .error e =>
          .ok (none, some ((ErrInternalUnexpected.WithMessage
            "Failed to parse Gemini response").WithDebugInfo e))
        | .ok geminiResp =>
          match extractFirstText geminiResp with
          | .panic m => .panic m
          | .ok answer =>
            if answer = "" then
              .ok (none, some (ErrInternalUnexpected.WithMessage
                "Empty response from Gemini"))
            else
              .ok (some { Answer := answer, AnswerId := "" }, none)

/-! ## Title generation: GenerateChatTitle -/

/-- Predicate `unicode.IsSpace` (Go), restricted to the Latin-1 range it special-cases;
the title flow only meets ASCII whitespace. -/
def goIsSpace (c : Char) : Bool :=
  c = ' ' || c = '\t' || c = '\n' || c = '\x0b' || c = '\x0c' || c = '\r' ||
    c = '\x85' || c = '\xa0'

/-- Function `strings.TrimSpace`: drop leading and trailing whitespace. -/
def goTrimSpace (s : String) : String :=
  String.mk (((s.toList.dropWhile goIsSpace).reverse.dropWhile goIsSpace).reverse)

/-- Function `strings.Trim` with a one-character cutset: drop ALL leading and trailing
occurrences of that character (not just one layer). -/
def goTrim (s : String) (c : Char) : String :=
  String.mk (((s.toList.dropWhile (· == c)).reverse.dropWhile (· == c)).reverse)

/-- Modelled from the spec: `firstN` (helper outside `src/`) truncates a string
to at most `n` raw characters, with no word-boundary handling. -/
def firstN (s : String) (n : Nat) : String :=
  String.mk (s.toList.take n)

/-- The post-processing tail of `GenerateChatTitle` (source lines 182–195):
nil/empty check, `TrimSpace`, `Trim` of `"` then of `*`, blank rejection,
truncation to 100 characters. -/
def generateChatTitlePost (answer : Option LLMAnswer) : Except APIError String :=
  match answer with
  | none => .error (ErrInternalUnexpected.WithMessage "Empty response from Gemini")
  | some a =>
    if a.Answer = "" then
      .error (ErrInternalUnexpected.WithMessage "Empty response from Gemini")
    else
      let title := goTrimSpace a.Answer
      let title1 := goTrim title '"'
      let title2 := goTrim title1 '*'
      if title2 = "" then
        .error (ErrInternalUnexpected.WithMessage "Invalid title generated")
      else
        .ok (firstN title2 100)

/-- Function `GenerateChatTitle`: API-key check, transcript validation, payload
generation (oracle), URL construction, request construction (oracle), the
single-shot exchange, then post-processing.  Oracles stand for the external
`gemini.GenGemminPayload`, `http.NewRequest` and the transport. -/
def GenerateChatTitle (env : String → String) (model chatText : String)
    (payloadRes : Except String Unit) (newReqErr : Option String)
    (decode : String → Except String ResponseBody) (transport : TransportResult) :
    GoResult (Except APIError String) :=
  let apiKey := env "GEMINI_API_KEY"
  if apiKey = "" then
    .ok (.error (ErrInternalUnexpected.WithMessage
      "GEMINI_API_KEY environment variable not set"))
  else if goTrimSpace chatText = "" then
    .ok (.error (ErrValidationInvalidInput "chat text cannot be empty"))
  else
    match payloadRes with
    | .error e =>
      .ok (.error ((ErrInternalUnexpected.WithMessage
        "Failed to generate Gemini payload").WithDebugInfo e))
    | .ok _ =>
      let _url := buildAPIURL env model false
      match newReqErr with
      | some e =>
        .ok (.error ((ErrInternalUnexpected.WithMessage
          "Failed to create Gemini API request").WithDebugInfo e))
      | none =>
        match handleRegularResponse decode transport with
        | .panic m => .panic m
        | .ok (_, some err) => .ok (.error err)
        | .ok (answer, none) => .ok (generateChatTitlePost answer)

/-! ## The streaming path: handleStreamResponse -/

/-- One outcome of `ioreader.ReadBytes('\n')` in the stream loop: a complete
line (error nil), or a non-EOF read error.  End of the event list is EOF.
(When `ReadBytes` returns data together with an error the source discards the
data, so an errored partial line needs no data field.) -/
inductive ReadEvent where
  | line (s : String)
  | err (e : String)
deriving Repr, DecidableEq

/-- Result of one streaming (or relayed single-shot) invocation: the returned
answer pointer, the returned error, and the ordered payloads written to the
response writer — each forwarded completion response is modelled as its
`(answer id, cumulative text)` content (the source marshals exactly these into
the `data: <json>` event, via `constructChatCompletionStreamReponse`, which
lives outside `src/`). -/
structure StreamResult where
  answer : Option LLMAnswer
  error : Option APIError
  written : List (String × String)
deriving Repr, DecidableEq

/-- Does a raw line carry the `data: ` stream-event prefix
(`bytes.HasPrefix(line, headerData)`)? -/
def sigLine (l : String) : Bool :=
  List.isPrefixOf "data: ".toList l.toList

/-- Operation `bytes.TrimPrefix(line, headerData)` on a line known to carry the prefix:
drop the six prefix characters (`data: ` is pure ASCII, so byte count and
character count agree). -/
def stripData (l : String) : String :=
  String.mk (l.toList.drop 6)

/-- The body of one loop iteration on a line that was read without error:
skip it unless it has the `data: ` prefix; strip the prefix; if the remainder
is non-empty, fold it into the answer with `gemini.ParseRespLine` (supplied as
the pure oracle `parse`) and forward a delivery.  Returns the updated
accumulated answer and delivery list. -/
def foldStep (parse : String → String → String) (answerID : String)
    (l : String) (answer : String) (ds : List (String × String)) :
    String × List (String × String) :=
  if sigLine l then
    let rest := stripData l
    if 0 < rest.length then
      let answer1 := parse rest answer
      (answer1, ds ++ [(answerID, answer1)])
    else (answer, ds)
  else (answer, ds)

/-- The `for count := 0; count < 10000; count++` loop of
`handleStreamResponse`, with the remaining iteration budget as fuel:
fuel exhausted → fall out of the loop and return the accumulated answer;
EOF → return the accumulated answer; other read error → return the classified
error and no answer; line → `foldStep`, recurse. -/
def streamLoop (parse : String → String → String) (answerID : String) :
    Nat → List ReadEvent → String → List (String × String) → StreamResult
  | 0, _, answer, ds => ⟨some ⟨answer, answerID⟩, none, ds⟩
  | _ + 1, [], answer, ds => ⟨some ⟨answer, answerID⟩, none, ds⟩
  | _ + 1, .err e :: _, _, ds =>
    ⟨none, some ((ErrInternalUnexpected.WithMessage
      "Error reading stream").WithDebugInfo e), ds⟩
  | n + 1, .line l :: rest, answer, ds =>
    streamLoop parse answerID n rest
      (foldStep parse answerID l answer ds).1 (foldStep parse answerID l answer ds).2

/-- Function `handleStreamResponse`: transport dispatch (oracle), SSE headers (header
fields only — no body bytes), the `http.Flusher` capability check, then the
bounded read loop starting from an empty accumulated answer. -/
def handleStreamResponse (parse : String → String → String)
    (doResult : Except String (List ReadEvent)) (isFlusher : Bool)
    (answerID : String) : StreamResult :=
  match doResult with
  | .error e =>
    ⟨none, some ((ErrInternalUnexpected.WithMessage
      "Failed to send Gemini API request").WithDebugInfo e), []⟩
  | .ok events =>
    if !isFlusher then
      ⟨none, some streamUnsupportedError, []⟩
    else
      streamLoop parse answerID 10000 events "" []

/-- The same loop without the iteration cap (structural recursion on the
events); used to state fuel-adequacy and skip-invariance. -/
def streamRun (parse : String → String → String) (answerID : String) :
    List ReadEvent → String → List (String × String) → StreamResult
  | [], answer, ds => ⟨some ⟨answer, answerID⟩, none, ds⟩
  | .err e :: _, _, ds =>
    ⟨none, some ((ErrInternalUnexpected.WithMessage
      "Error reading stream").WithDebugInfo e), ds⟩
  | .line l :: rest, answer, ds =>
    streamRun parse answerID rest
      (foldStep parse answerID l answer ds).1 (foldStep parse answerID l answer ds).2

/-- Folding `foldStep` over a list of raw lines: the accumulated answer and
deliveries produced by an error-free segment of the stream. -/
def linesFold (parse : String → String → String) (answerID : String) :
    List String → String → List (String × String) → String × List (String × String)
  | [], answer, ds => (answer, ds)
  | l :: rest, answer, ds =>
    linesFold parse answerID rest
      (foldStep parse answerID l answer ds).1 (foldStep parse answerID l answer ds).2

/-- An event survives the skip filter iff it is a read error or a line
carrying the `data: ` prefix. -/
def keepEvent : ReadEvent → Bool
  | .line l => sigLine l
  | .err _ => true

/-- With enough fuel for every event, the capped loop agrees with the
uncapped run. -/
theorem streamLoop_eq_streamRun (parse : String → String → String) (answerID : String) :
    ∀ (events : List ReadEvent) (fuel : Nat) (answer : String)
      (ds : List (String × String)), events.length ≤ fuel →
      streamLoop parse answerID fuel events answer ds =
        streamRun parse answerID events answer ds := by
  intro events
  induction events with
  | nil =>
    intro fuel answer ds _
    match fuel with
    | 0 => rfl
    | _ + 1 => rfl
  | cons e rest ih =>
    intro fuel answer ds h
    match fuel, h with
    | n + 1, h =>
      match e with
      | .err e => rfl
      | .line l =>
        simp only [streamLoop, streamRun]
        exact ih n _ _ (by simpa using Nat.le_of_succ_le_succ h)

/-- Lines without the `data: ` prefix never change the state. -/
theorem foldStep_skip (parse : String → String → String) (answerID : String)
    (l : String) (answer : String) (ds : List (String × String))
    (h : sigLine l = false) :
    foldStep parse answerID l answer ds = (answer, ds) := by
  simp [foldStep, h]

/-- Skip-invariance of the uncapped run: removing the skipped events does not
change the outcome. -/
theorem streamRun_filter (parse : String → String → String) (answerID : String) :
    ∀ (events : List ReadEvent) (answer : String) (ds : List (String × String)),
      streamRun parse answerID (events.filter keepEvent) answer ds =
        streamRun parse answerID events answer ds := by
  intro events
  induction events with
  | nil => intro answer ds; rfl
  | cons e rest ih =>
    intro answer ds
    match e with
    | .err t =>
      have hf : List.filter keepEvent (ReadEvent.err t :: rest) =
          ReadEvent.err t :: List.filter keepEvent rest := by
        rw [List.filter_cons]
        rfl
      rw [hf]
      rfl
    | .line l =>
      by_cases h : sigLine l
      · have hf : List.filter keepEvent (ReadEvent.line l :: rest) =
            ReadEvent.line l :: List.filter keepEvent rest := by
          rw [List.filter_cons]
          simp [keepEvent, h]
        rw [hf]
        simp only [streamRun]
        exact ih _ _
      · have h' : sigLine l = false := by simpa using h
        have hf : List.filter keepEvent (ReadEvent.line l :: rest) =
            List.filter keepEvent rest := by
          rw [List.filter_cons]
          simp [keepEvent, h']
        rw [hf]
        simp only [streamRun, foldStep_skip parse answerID l answer ds h']
        exact ih _ _

/-- Running the uncapped loop on an error-free stream: terminates at EOF with
the folded answer and deliveries. -/
theorem streamRun_lines (parse : String → String → String) (answerID : String) :
    ∀ (ls : List String) (answer : String) (ds : List (String × String)),
      streamRun parse answerID (ls.map ReadEvent.line) answer ds =
        ⟨some ⟨(linesFold parse answerID ls answer ds).1, answerID⟩, none,
          (linesFold parse answerID ls answer ds).2⟩ := by
  intro ls
  induction ls with
  | nil => intro answer ds; rfl
  | cons l rest ih =>
    intro answer ds
    simp only [List.map, streamRun, linesFold]
    exact ih _ _

/-- Running the uncapped loop on an error-free prefix followed by a read
error: the classified error is returned, the accumulated answer discarded,
the deliveries of the prefix already written. -/
theorem streamRun_lines_err (parse : String → String → String) (answerID : String) :
    ∀ (ls : List String) (e : String) (tail : List ReadEvent) (answer : String)
      (ds : List (String × String)),
      streamRun parse answerID (ls.map ReadEvent.line ++ ReadEvent.err e :: tail) answer ds =
        ⟨none, some ((ErrInternalUnexpected.WithMessage
          "Error reading stream").WithDebugInfo e),
          (linesFold parse answerID ls answer ds).2⟩ := by
  intro ls
  induction ls with
  | nil => intro e tail answer ds; rfl
  | cons l rest ih =>
    intro e tail answer ds
    simp only [List.map, List.cons_append, streamRun, linesFold]
    exact ih _ _ _ _

/-- Exhausting the fuel while lines remain: the capped loop falls out of the
`for` and returns the answer folded from the first `fuel` lines, with no
error. -/
theorem streamLoop_cap (parse : String → String → String) (answerID : String) :
    ∀ (fuel : Nat) (ls : List String) (tail : List ReadEvent) (answer : String)
      (ds : List (String × String)), fuel ≤ ls.length →
      streamLoop parse answerID fuel (ls.map ReadEvent.line ++ tail) answer ds =
        ⟨some ⟨(linesFold parse answerID (ls.take fuel) answer ds).1, answerID⟩, none,
          (linesFold parse answerID (ls.take fuel) answer ds).2⟩ := by
  intro fuel
  induction fuel with
  | zero => intro ls tail answer ds _; rfl
  | succ n ih =>
    intro ls tail answer ds h
    match ls, h with
    | l :: rest, h =>
      simp only [List.map, List.cons_append, streamLoop, List.take, linesFold]
      exact ih rest tail _ _ (Nat.le_of_succ_le_succ h)

/-! ## The orchestrating Stream method -/

/-- Method `(*GeminiChatModel).Stream`: answer-id selection (`NewUUID` supplied as
`freshUuid`), chat-file fetch (oracle), payload generation (oracle), URL
construction, request construction (oracle), then either the streaming handler
or the single-shot handler followed by the unconditional completion-response
write.  In the single-shot branch the source dereferences `llmAnswer.Answer`
without a nil check when building the completion response (only the
`AnswerId` assignment is guarded), so a nil answer from
`handleRegularResponse` panics. -/
def Stream (env : String → String) (chatFilesRes payloadRes : Except String Unit)
    (newReqErr : Option String) (parse : String → String → String)
    (decode : String → Except String ResponseBody)
    (regTransport : TransportResult) (streamEvents : Except String (List ReadEvent))
    (isFlusher : Bool) (model chatUuid freshUuid : String)
    (regenerate stream : Bool) : GoResult StreamResult :=
  let answerID := if !regenerate then freshUuid else chatUuid
  match chatFilesRes with
  | .error e =>
    .ok ⟨none, some ((ErrInternalUnexpected.WithMessage
      "Failed to get chat files").WithDebugInfo e), []⟩
  | .ok _ =>
    match payloadRes with
    | .error e =>
      .ok ⟨none, some ((ErrInternalUnexpected.WithMessage
        "Failed to generate Gemini payload").WithDebugInfo e), []⟩
    | .ok _ =>
      let _url := buildAPIURL env model stream
      match newReqErr with
      | some e =>
        .ok ⟨none, some ((ErrInternalUnexpected.WithMessage
          "Failed to create Gemini API request").WithDebugInfo e), []⟩
      | none =>
        if stream then
          .ok (handleStreamResponse parse streamEvents isFlusher answerID)
        else
          match handleRegularResponse decode regTransport with
          | .panic m => .panic m
          | .ok (llmAnswer, err) =>
            match llmAnswer with
            | some a =>
              .ok ⟨some { a with AnswerId := answerID }, err,
                [(answerID, a.Answer)]⟩
            | none =>
              .panic "runtime error: invalid memory address or nil pointer dereference"

/-! ## Error-string provenance (for the secret-leak analysis) -/

/-- Every string that can become the `message` of an error produced by
`handleRegularResponse` at transport outcome `t`. -/
def regMessageStrings (t : TransportResult) : List String :=
  ["Failed to send Gemini API request", "Failed to read Gemini response",
    "Failed to parse Gemini response", "Empty response from Gemini"] ++
  (match t with
   | .response st _ _ => ["Gemini API error: " ++ toString st]
   | _ => [])

/-- Every string that can become the `debugInfo` of an error produced by
`handleRegularResponse` at transport outcome `t` with decoder `decode`:
the transport error text, the raw body, the read error, the decode error,
or the empty string. -/
def regDebugStrings (decode : String → Except String ResponseBody)
    (t : TransportResult) : List String :=
  "" :: (match t with
  | .doError e => [e]
  | .response _ bodyBytes bodyErr =>
    [bodyBytes] ++ (match bodyErr with | some e => [e] | none => []) ++
      (match decode bodyBytes with | .error e => [e] | .ok _ => []))

/-- Every string that can become the `message` of an error produced by
`handleStreamResponse`. -/
def streamMessageStrings : List String :=
  ["Failed to send Gemini API request", "Error reading stream",
    "Streaming unsupported by client"]

/-- Every string that can become the `debugInfo` of an error produced by
`handleStreamResponse`: the transport error text, a read-error text from the
stream, or the empty string. -/
def streamDebugStrings (doResult : Except String (List ReadEvent)) : List String :=
  "" :: (match doResult with
  | .error e => [e]
  | .ok events => events.filterMap (fun ev =>
      match ev with | .err e => some e | .line _ => none))

/-- An error surfacing from the stream loop is the read-error classification
of some `err` event of the stream. -/
theorem streamLoop_error_provenance (parse : String → String → String)
    (answerID : String) :
    ∀ (fuel : Nat) (events : List ReadEvent) (answer : String)
      (ds : List (String × String)) (e : APIError),
      (streamLoop parse answerID fuel events answer ds).error = some e →
      ∃ t, ReadEvent.err t ∈ events ∧
        e = (ErrInternalUnexpected.WithMessage "Error reading stream").WithDebugInfo t := by
  intro fuel
  induction fuel with
  | zero => intro events answer ds e h; simp [streamLoop] at h
  | succ n ih =>
    intro events answer ds e h
    match events with
    | [] => simp [streamLoop] at h
    | .err t :: rest =>
      refine ⟨t, List.mem_cons_self _ _, ?_⟩
      simp only [streamLoop] at h
      exact (Option.some.injEq _ _ ▸ h.symm ▸ rfl)
    | .line l :: rest =>
      simp only [streamLoop] at h
      obtain ⟨t, hmem, he⟩ := ih rest _ _ e h
      exact ⟨t, List.mem_cons_of_mem _ hmem, he⟩

/-- With a transport response and a flushable consumer, the streaming handler
is the capped loop started on an empty accumulator. -/
theorem handleStreamResponse_ok_flusher (parse : String → String → String)
    (answerID : String) (events : List ReadEvent) :
    handleStreamResponse parse (.ok events) true answerID =
      streamLoop parse answerID 10000 events "" [] := rfl

/-- Variant of `streamRun_lines_err` for the capped loop: a read error within
the iteration budget fails the stream regardless of what follows. -/
theorem streamLoop_lines_err (parse : String → String → String) (answerID : String) :
    ∀ (ls : List String) (fuel : Nat) (e : String) (tail : List ReadEvent)
      (answer : String) (ds : List (String × String)), ls.length < fuel →
      streamLoop parse answerID fuel
          (ls.map ReadEvent.line ++ ReadEvent.err e :: tail) answer ds =
        ⟨none, some ((ErrInternalUnexpected.WithMessage
          "Error reading stream").WithDebugInfo e),
          (linesFold parse answerID ls answer ds).2⟩ := by
  intro ls
  induction ls with
  | nil =>
    intro fuel e tail answer ds h
    match fuel, h with
    | n + 1, _ => rfl
  | cons l rest ih =>
    intro fuel e tail answer ds h
    match fuel, h with
    | n + 1, h =>
      simp only [List.map, List.cons_append, streamLoop, linesFold]
      refine ih n e tail _ _ ?_
      simp only [List.length_cons] at h
      omega

/-- Insignificant lines burn the whole iteration budget without touching the
state: with exactly `n` budget and `n` insignificant lines ahead, the loop
caps out returning the untouched accumulator. -/
theorem streamLoop_replicate_insig (parse : String → String → String)
    (answerID : String) (l : String) (hl : sigLine l = false) :
    ∀ (n : Nat) (tail : List ReadEvent) (answer : String)
      (ds : List (String × String)),
      streamLoop parse answerID n (List.replicate n (ReadEvent.line l) ++ tail) answer ds =
        ⟨some ⟨answer, answerID⟩, none, ds⟩ := by
  intro n
  induction n with
  | zero => intro tail answer ds; rfl
  | succ m ih =>
    intro tail answer ds
    simp only [List.replicate_succ, List.cons_append, streamLoop,
      foldStep_skip parse answerID l answer ds hl]
    exact ih _ _ _

/-- The skip filter removes a run of insignificant lines entirely. -/
theorem filter_replicate_insig (l : String) (hl : sigLine l = false) (n : Nat) :
    (List.replicate n (ReadEvent.line l)).filter keepEvent = [] := by
  induction n with
  | zero => rfl
  | succ m ih =>
    rw [List.replicate_succ, List.filter_cons]
    simp [keepEvent, hl, ih]

/-- Helper `firstN` truncates to at most `n` characters. -/
theorem firstN_length_le (s : String) (n : Nat) : (firstN s n).toList.length ≤ n := by
  simp [firstN]

/-- The spec-worded post-processing step, for comparison with the source: strip
a single layer of enclosing quote or emphasis punctuation — remove exactly one
matching `"` or `*` from each end when the two ends agree. -/
def stripSingleLayer (s : String) : String :=
  match s.toList, s.toList.reverse with
  | c :: _ :: _, d :: ds =>
    if (c = '"' || c = '*') && c = d then String.mk (ds.reverse.drop 1) else s
  | _, _ => s

/-- Every string that can become the `message` of an error produced by any of
the four operations (`Stream` in either mode, `handleRegularResponse`,
`handleStreamResponse`, `GenerateChatTitle`): the wrapper constants of
`Stream` and `GenerateChatTitle` plus the two handlers' message strings. -/
def allMessageStrings (t : TransportResult) : List String :=
  ["Failed to get chat files", "Failed to generate Gemini payload",
    "Failed to create Gemini API request",
    "GEMINI_API_KEY environment variable not set", "chat text cannot be empty",
    "Empty response from Gemini", "Invalid title generated"] ++
  regMessageStrings t ++ streamMessageStrings

/-- Every string that can become the `debugInfo` of an error produced by any
of the four operations: the chat-files fetch error text, the payload
generation error text, the request construction error text, and the two
handlers' debug strings. -/
def allDebugStrings (chatFilesRes payloadRes : Except String Unit)
    (newReqErr : Option String) (decode : String → Except String ResponseBody)
    (t : TransportResult) (sdo : Except String (List ReadEvent)) : List String :=
  (match chatFilesRes with | .error e => [e] | .ok _ => []) ++
  (match payloadRes with | .error e => [e] | .ok _ => []) ++
  (match newReqErr with | some e => [e] | none => []) ++
  regDebugStrings decode t ++ streamDebugStrings sdo

/-- Provenance of errors from the single-shot handler: the message is one of
its fixed strings and the debug detail one of its input strings. -/
theorem handleRegularResponse_error_mem (decode : String → Except String ResponseBody)
    (t : TransportResult) :
    ∀ a e, handleRegularResponse decode t = .ok (a, some e) →
      e.message ∈ regMessageStrings t ∧ e.debugInfo ∈ regDebugStrings decode t := by
  intro a e he
  match t, he with
  | .doError s, he =>
    simp only [handleRegularResponse, GoResult.ok.injEq, Prod.mk.injEq,
      Option.some.injEq] at he
    obtain ⟨-, rfl⟩ := he
    exact ⟨by simp [regMessageStrings, APIError.WithMessage, APIError.WithDebugInfo,
        ErrInternalUnexpected],
      by simp [regDebugStrings, APIError.WithMessage, APIError.WithDebugInfo,
        ErrInternalUnexpected]⟩
  | .response st body berr, he =>
    simp only [handleRegularResponse] at he
    split at he
    · simp only [GoResult.ok.injEq, Prod.mk.injEq, Option.some.injEq] at he
      obtain ⟨-, rfl⟩ := he
      exact ⟨by simp [regMessageStrings, APIError.WithMessage, APIError.WithDebugInfo,
          ErrInternalUnexpected],
        by simp [regDebugStrings, APIError.WithMessage, APIError.WithDebugInfo,
          ErrInternalUnexpected]⟩
    · split at he
      · simp only [GoResult.ok.injEq, Prod.mk.injEq, Option.some.injEq] at he
        obtain ⟨-, rfl⟩ := he
        exact ⟨by simp [regMessageStrings, APIError.WithMessage,
            APIError.WithDebugInfo, ErrInternalUnexpected],
          by simp [regDebugStrings, APIError.WithMessage, APIError.WithDebugInfo,
            ErrInternalUnexpected]⟩
      · split at he
        · simp only [GoResult.ok.injEq, Prod.mk.injEq, Option.some.injEq] at he
          obtain ⟨-, rfl⟩ := he
          rename_i hdec
          exact ⟨by simp [regMessageStrings, APIError.WithMessage,
              APIError.WithDebugInfo, ErrInternalUnexpected],
            by simp [regDebugStrings, hdec, APIError.WithMessage,
              APIError.WithDebugInfo, ErrInternalUnexpected]⟩
        · split at he
          · simp at he
          · split at he
            · simp only [GoResult.ok.injEq, Prod.mk.injEq, Option.some.injEq] at he
              obtain ⟨-, rfl⟩ := he
              exact ⟨by simp [regMessageStrings, APIError.WithMessage,
                  APIError.WithDebugInfo, ErrInternalUnexpected],
                by simp [regDebugStrings, APIError.WithMessage,
                  APIError.WithDebugInfo, ErrInternalUnexpected]⟩
            · simp at he

/-- Provenance of errors from the streaming handler: the message is one of its
fixed strings and the debug detail one of its input strings. -/
theorem handleStreamResponse_error_mem (parse : String → String → String)
    (sdo : Except String (List ReadEvent)) (isFlusher : Bool) (answerID : String) :
    ∀ e, (handleStreamResponse parse sdo isFlusher answerID).error = some e →
      e.message ∈ streamMessageStrings ∧ e.debugInfo ∈ streamDebugStrings sdo := by
  intro e he
  match sdo, he with
  | .error s, he =>
    have he' : some ((ErrInternalUnexpected.WithMessage
        "Failed to send Gemini API request").WithDebugInfo s) = some e := he
    obtain rfl := (Option.some.injEq _ _).mp he'
    exact ⟨by simp [streamMessageStrings, APIError.WithMessage,
        APIError.WithDebugInfo, ErrInternalUnexpected],
      by simp [streamDebugStrings, APIError.WithMessage, APIError.WithDebugInfo,
        ErrInternalUnexpected]⟩
  | .ok events, he =>
    by_cases hf : isFlusher
    · have he' : (streamLoop parse answerID 10000 events "" []).error = some e := by
        rw [hf] at he
        exact he
      obtain ⟨tn, hmem, rfl⟩ := streamLoop_error_provenance parse answerID
        10000 events "" [] e he'
      refine ⟨by simp [streamMessageStrings, APIError.WithMessage,
          APIError.WithDebugInfo, ErrInternalUnexpected], ?_⟩
      show tn ∈ streamDebugStrings (.ok events)
      exact List.mem_cons_of_mem _
        (List.mem_filterMap.mpr ⟨ReadEvent.err tn, hmem, rfl⟩)
    · have hf' : isFlusher = false := by simpa using hf
      have he' : some streamUnsupportedError = some e := by
        rw [hf'] at he
        exact he
      obtain rfl := (Option.some.injEq _ _).mp he'
      refine ⟨by simp [streamMessageStrings, streamUnsupportedError], ?_⟩
      show (""  : String) ∈ streamDebugStrings (.ok events)
      exact List.mem_cons_self _ _

/-- Provenance of errors from the title post-processing: the message is one of
its two fixed strings and the debug detail is empty. -/
theorem generateChatTitlePost_error_mem :
    ∀ (answer : Option LLMAnswer) (e : APIError),
      generateChatTitlePost answer = .error e →
      (e.message = "Empty response from Gemini" ∨
        e.message = "Invalid title generated") ∧ e.debugInfo = "" := by
  intro answer e h
  match answer, h with
  | none, h =>
    simp only [generateChatTitlePost, Except.error.injEq] at h
    subst h
    exact ⟨Or.inl rfl, rfl⟩
  | some a, h =>
    simp only [generateChatTitlePost] at h
    split at h
    · simp only [Except.error.injEq] at h
      subst h
      exact ⟨Or.inl rfl, rfl⟩
    · split at h
      · simp only [Except.error.injEq] at h
        subst h
        exact ⟨Or.inr rfl, rfl⟩
      · simp at h

end GeminiService

/-! ## The claims -/

/-- C1: code evaluation at the failing inputs.  The claim says an envelope
without any candidate, or with whitespace-only extracted text, yields an
EmptyAnswer-classified error and no answer.  The code instead panics on the
missing candidate (unguarded `Candidates[0]`) and returns whitespace-only text
as a successful answer (the emptiness check is untrimmed); a genuinely empty
extracted text does produce the empty-answer error. -/
theorem c1_empty_candidate_evaluation :
    GeminiService.handleRegularResponse (fun _ => .ok ⟨[]⟩)
        (.response 200 "resp" none) =
      .panic "runtime error: index out of range [0] with length 0" ∧
    GeminiService.handleRegularResponse (fun _ => .ok ⟨[⟨⟨[⟨" "⟩]⟩⟩]⟩)
        (.response 200 "resp" none) =
      .ok (some ⟨" ", ""⟩, none) ∧
    GeminiService.handleRegularResponse (fun _ => .ok ⟨[⟨⟨[⟨""⟩]⟩⟩]⟩)
        (.response 200 "resp" none) =
      .ok (none, some (GeminiService.ErrInternalUnexpected.WithMessage
        "Empty response from Gemini")) :=
  ⟨rfl, rfl, rfl⟩

/-- C3: a stream whose body yields at least as many lines as the 10000-line
cap before any read error: the loop stops at the cap and the call returns a
successful answer (no error) carrying the text accumulated from the first
10000 lines, with the deliveries already forwarded. -/
theorem c3_cap_returns_complete (parse : String → String → String)
    (answerID : String) (ls : List String) (tail : List GeminiService.ReadEvent)
    (h : 10000 ≤ ls.length) :
    GeminiService.handleStreamResponse parse
        (.ok (ls.map GeminiService.ReadEvent.line ++ tail)) true answerID =
      ⟨some ⟨(GeminiService.linesFold parse answerID (ls.take 10000) "" []).1,
          answerID⟩, none,
        (GeminiService.linesFold parse answerID (ls.take 10000) "" []).2⟩ := by
  show GeminiService.streamLoop parse answerID 10000 _ "" [] = _
  exact GeminiService.streamLoop_cap parse answerID 10000 ls tail "" [] h

/-- C3 witness: a concrete stream of 10000 lines hits the cap and completes. -/
theorem c3_cap_returns_complete_witness :
    GeminiService.handleStreamResponse (fun l a => a ++ l)
        (.ok ((List.replicate 10000 "x").map GeminiService.ReadEvent.line ++ []))
        true "id" =
      ⟨some ⟨(GeminiService.linesFold (fun l a => a ++ l) "id"
          ((List.replicate 10000 "x").take 10000) "" []).1, "id"⟩, none,
        (GeminiService.linesFold (fun l a => a ++ l) "id"
          ((List.replicate 10000 "x").take 10000) "" []).2⟩ :=
  c3_cap_returns_complete (fun l a => a ++ l) "id" (List.replicate 10000 "x") []
    (by simp only [List.length_replicate]; omega)

/-- C4: within the iteration budget, end-of-input returns the accumulated
answer with the answer id as a success, while any other read error returns the
classified read error with no answer — the accumulated text is discarded and
only the deliveries already forwarded remain with the consumer. -/
theorem c4_eof_succeeds_read_error_fails (parse : String → String → String)
    (answerID : String) (ls : List String) (e : String)
    (tail : List GeminiService.ReadEvent) (h : ls.length < 10000) :
    GeminiService.handleStreamResponse parse
        (.ok (ls.map GeminiService.ReadEvent.line)) true answerID =
      ⟨some ⟨(GeminiService.linesFold parse answerID ls "" []).1, answerID⟩, none,
        (GeminiService.linesFold parse answerID ls "" []).2⟩ ∧
    GeminiService.handleStreamResponse parse
        (.ok (ls.map GeminiService.ReadEvent.line ++
          GeminiService.ReadEvent.err e :: tail)) true answerID =
      ⟨none, some ((GeminiService.ErrInternalUnexpected.WithMessage
          "Error reading stream").WithDebugInfo e),
        (GeminiService.linesFold parse answerID ls "" []).2⟩ := by
  constructor
  · show GeminiService.streamLoop parse answerID 10000 _ "" [] = _
    rw [GeminiService.streamLoop_eq_streamRun parse answerID _ 10000 "" []
      (by simp; omega)]
    exact GeminiService.streamRun_lines parse answerID ls "" []
  · show GeminiService.streamLoop parse answerID 10000 _ "" [] = _
    exact GeminiService.streamLoop_lines_err parse answerID ls 10000 e tail "" [] h

/-- C4 witness: one significant line then EOF succeeds; the same line followed
by a read error fails with no answer. -/
theorem c4_eof_succeeds_read_error_fails_witness :
    GeminiService.handleStreamResponse (fun l a => a ++ l)
        (.ok (["data: a"].map GeminiService.ReadEvent.line)) true "id" =
      ⟨some ⟨(GeminiService.linesFold (fun l a => a ++ l) "id" ["data: a"] "" []).1,
          "id"⟩, none,
        (GeminiService.linesFold (fun l a => a ++ l) "id" ["data: a"] "" []).2⟩ ∧
    GeminiService.handleStreamResponse (fun l a => a ++ l)
        (.ok (["data: a"].map GeminiService.ReadEvent.line ++
          GeminiService.ReadEvent.err "connection reset" :: [])) true "id" =
      ⟨none, some ((GeminiService.ErrInternalUnexpected.WithMessage
          "Error reading stream").WithDebugInfo "connection reset"),
        (GeminiService.linesFold (fun l a => a ++ l) "id" ["data: a"] "" []).2⟩ :=
  c4_eof_succeeds_read_error_fails (fun l a => a ++ l) "id" ["data: a"]
    "connection reset" [] (by decide)

/-- C8: when the downstream consumer is not an `http.Flusher`, the streaming
handler writes nothing to it regardless of the transport outcome, and whenever
the provider exchange produced a response it fails with exactly the
stream-unsupported error, independent of the stream contents — no line is
processed. -/
theorem c8_not_flusher_stream_unsupported (parse : String → String → String)
    (doResult : Except String (List GeminiService.ReadEvent)) (answerID : String) :
    (GeminiService.handleStreamResponse parse doResult false answerID).written = [] ∧
    (∀ events, doResult = .ok events →
      GeminiService.handleStreamResponse parse doResult false answerID =
        ⟨none, some GeminiService.streamUnsupportedError, []⟩) := by
  constructor
  · match doResult with
    | .error e => rfl
    | .ok events => rfl
  · intro events h
    subst h
    rfl

/-- C8 witness: a concrete non-flushable invocation with a non-empty stream. -/
theorem c8_not_flusher_stream_unsupported_witness :
    (GeminiService.handleStreamResponse (fun l a => a ++ l)
        (.ok [GeminiService.ReadEvent.line "data: y"]) false "id").written = [] ∧
    GeminiService.handleStreamResponse (fun l a => a ++ l)
        (.ok [GeminiService.ReadEvent.line "data: y"]) false "id" =
      ⟨none, some GeminiService.streamUnsupportedError, []⟩ :=
  ⟨(c8_not_flusher_stream_unsupported (fun l a => a ++ l)
      (.ok [GeminiService.ReadEvent.line "data: y"]) "id").1,
    (c8_not_flusher_stream_unsupported (fun l a => a ++ l)
      (.ok [GeminiService.ReadEvent.line "data: y"]) "id").2
      [GeminiService.ReadEvent.line "data: y"] rfl⟩

/-- C9: code evaluation at the failing input — a non-streaming `Stream` call
whose provider request fails: `handleRegularResponse` returns a nil answer
together with the classified error, and `Stream` then dereferences the nil
answer while building the completion response, panicking instead of returning
the error. -/
theorem c9_nil_answer_dereference :
    GeminiService.handleRegularResponse (fun _ => .error "x")
        (.doError "dial tcp: connection refused") =
      .ok (none, some ((GeminiService.ErrInternalUnexpected.WithMessage
        "Failed to send Gemini API request").WithDebugInfo
        "dial tcp: connection refused")) ∧
    GeminiService.Stream (fun _ => "k") (.ok ()) (.ok ()) none (fun l a => a ++ l)
        (fun _ => .error "x") (.doError "dial tcp: connection refused") (.ok [])
        true "gemini-pro" "cu" "fresh" false false =
      .panic "runtime error: invalid memory address or nil pointer dereference" :=
  ⟨rfl, rfl⟩

/-- C10: in `GenerateChatTitle` the credential check strictly precedes input
validation: with the key unset and a blank (empty after trimming) transcript,
the returned error is the missing-credential configuration error, which is
distinct from every validation-kind error. -/
theorem c10_credential_check_precedes_validation (env : String → String)
    (model chatText : String) (payloadRes : Except String Unit)
    (newReqErr : Option String)
    (decode : String → Except String GeminiService.ResponseBody)
    (transport : GeminiService.TransportResult)
    (hk : env "GEMINI_API_KEY" = "")
    (hblank : GeminiService.goTrimSpace chatText = "") :
    GeminiService.GenerateChatTitle env model chatText payloadRes newReqErr
        decode transport =
      .ok (.error (GeminiService.ErrInternalUnexpected.WithMessage
        "GEMINI_API_KEY environment variable not set")) ∧
    ∀ m, GeminiService.ErrInternalUnexpected.WithMessage
        "GEMINI_API_KEY environment variable not set" ≠
      GeminiService.ErrValidationInvalidInput m := by
  constructor
  · simp [GeminiService.GenerateChatTitle, hk]
  · intro m hcontra
    have hcode := congrArg GeminiService.APIError.code hcontra
    simp [GeminiService.ErrInternalUnexpected, GeminiService.APIError.WithMessage,
      GeminiService.ErrValidationInvalidInput] at hcode

/-- C10 witness: key unset and whitespace-only transcript yield the
missing-credential error. -/
theorem c10_credential_check_precedes_validation_witness :
    GeminiService.GenerateChatTitle (fun _ => "") "gemini-pro" "   " (.ok ()) none
        (fun _ => .error "e") (.doError "refused") =
      .ok (.error (GeminiService.ErrInternalUnexpected.WithMessage
        "GEMINI_API_KEY environment variable not set")) ∧
    ∀ m, GeminiService.ErrInternalUnexpected.WithMessage
        "GEMINI_API_KEY environment variable not set" ≠
      GeminiService.ErrValidationInvalidInput m :=
  c10_credential_check_precedes_validation (fun _ => "") "gemini-pro" "   "
    (.ok ()) none (fun _ => .error "e") (.doError "refused") rfl rfl

/-- C5 (amended): skip-invariance holds for every stream of at most 10000 read
events: removing the lines that lack the `data: ` prefix changes neither the
final result nor the forwarded deliveries.  Beyond that bound it can fail,
because skipped lines still consume loop iterations (see the counterexample). -/
theorem c5_skip_invariance_below_cap (parse : String → String → String)
    (answerID : String) (events : List GeminiService.ReadEvent)
    (h : events.length ≤ 10000) :
    GeminiService.handleStreamResponse parse
        (.ok (events.filter GeminiService.keepEvent)) true answerID =
      GeminiService.handleStreamResponse parse (.ok events) true answerID := by
  show GeminiService.streamLoop parse answerID 10000 _ "" [] =
    GeminiService.streamLoop parse answerID 10000 _ "" []
  rw [GeminiService.streamLoop_eq_streamRun parse answerID _ 10000 "" []
      (le_trans (List.length_filter_le _ _) h),
    GeminiService.streamLoop_eq_streamRun parse answerID _ 10000 "" [] h]
  exact GeminiService.streamRun_filter parse answerID events "" []

/-- C5 witness: a concrete short stream with an interleaved insignificant
line gives the same result with and without that line. -/
theorem c5_skip_invariance_below_cap_witness :
    GeminiService.handleStreamResponse (fun l a => a ++ l)
        (.ok ([GeminiService.ReadEvent.line "x",
          GeminiService.ReadEvent.line "data: a",
          GeminiService.ReadEvent.err "boom"].filter GeminiService.keepEvent))
        true "id" =
      GeminiService.handleStreamResponse (fun l a => a ++ l)
        (.ok [GeminiService.ReadEvent.line "x",
          GeminiService.ReadEvent.line "data: a",
          GeminiService.ReadEvent.err "boom"]) true "id" :=
  c5_skip_invariance_below_cap (fun l a => a ++ l) "id"
    [GeminiService.ReadEvent.line "x", GeminiService.ReadEvent.line "data: a",
      GeminiService.ReadEvent.err "boom"] (by decide)

/-- C5 (counterexample): with 10000 insignificant lines followed by one
significant line, the run on the original input hits the iteration cap having
accumulated and delivered nothing, while the run on the filtered input
processes the significant line and forwards a delivery — skip-invariance fails
as universally stated. -/
theorem c5_skip_invariance_counterexample :
    GeminiService.handleStreamResponse (fun l a => a ++ l)
        (.ok (List.replicate 10000 (GeminiService.ReadEvent.line "x") ++
          [GeminiService.ReadEvent.line "data: y"])) true "id" ≠
      GeminiService.handleStreamResponse (fun l a => a ++ l)
        (.ok ((List.replicate 10000 (GeminiService.ReadEvent.line "x") ++
          [GeminiService.ReadEvent.line "data: y"]).filter GeminiService.keepEvent))
        true "id" := by
  have h2 : (List.replicate 10000 (GeminiService.ReadEvent.line "x") ++
      [GeminiService.ReadEvent.line "data: y"]).filter GeminiService.keepEvent =
      [GeminiService.ReadEvent.line "data: y"] := by
    rw [List.filter_append, GeminiService.filter_replicate_insig "x" (by decide) 10000]
    rfl
  rw [h2, GeminiService.handleStreamResponse_ok_flusher,
    GeminiService.handleStreamResponse_ok_flusher,
    GeminiService.streamLoop_replicate_insig (fun l a => a ++ l) "id" "x"
      (by decide) 10000 [GeminiService.ReadEvent.line "data: y"] "" []]
  decide

/-- C7 (amended): the title post-processing trims surrounding whitespace,
strips ALL enclosing double-quote characters and then ALL enclosing asterisks
(Go `strings.Trim` with a one-character cutset — not exactly a single layer),
rejects an entirely blank result as an error, and truncates to at most 100 raw
characters; on the spec example the full flow returns `Japan Trip Planning`. -/
theorem c7_title_postprocessing (a : GeminiService.LLMAnswer) (t : String)
    (h : GeminiService.generateChatTitlePost (some a) = .ok t) :
    t.toList.length ≤ 100 ∧
    GeminiService.GenerateChatTitle
        (fun v => if v = "GEMINI_API_KEY" then "k" else "")
        "gemini-pro" "Let\x27s plan a trip to Japan" (.ok ()) none
        (fun _ => .ok ⟨[⟨⟨[⟨"\"Japan Trip Planning\""⟩]⟩⟩]⟩)
        (.response 200 "resp" none) = .ok (.ok "Japan Trip Planning") ∧
    GeminiService.generateChatTitlePost (some ⟨"   ", ""⟩) =
      .error (GeminiService.ErrInternalUnexpected.WithMessage
        "Invalid title generated") := by
  refine ⟨?_, rfl, rfl⟩
  simp only [GeminiService.generateChatTitlePost] at h
  by_cases h1 : a.Answer = ""
  · rw [if_pos h1] at h
    simp at h
  · rw [if_neg h1] at h
    by_cases h2 : GeminiService.goTrim (GeminiService.goTrim
        (GeminiService.goTrimSpace a.Answer) '"') '*' = ""
    · rw [if_pos h2] at h
      simp at h
    · rw [if_neg h2] at h
      injection h with h3
      subst h3
      exact GeminiService.firstN_length_le _ 100

/-- C7 witness: the spec example discharges the hypothesis. -/
theorem c7_title_postprocessing_witness :
    ("Japan Trip Planning" : String).toList.length ≤ 100 ∧
    GeminiService.GenerateChatTitle
        (fun v => if v = "GEMINI_API_KEY" then "k" else "")
        "gemini-pro" "Let\x27s plan a trip to Japan" (.ok ()) none
        (fun _ => .ok ⟨[⟨⟨[⟨"\"Japan Trip Planning\""⟩]⟩⟩]⟩)
        (.response 200 "resp" none) = .ok (.ok "Japan Trip Planning") ∧
    GeminiService.generateChatTitlePost (some ⟨"   ", ""⟩) =
      .error (GeminiService.ErrInternalUnexpected.WithMessage
        "Invalid title generated") :=
  c7_title_postprocessing ⟨"\"Japan Trip Planning\"", ""⟩ "Japan Trip Planning" rfl

/-- C7 (counterexample): on a doubly quoted provider reply the code (Go
`strings.Trim`) strips both quote layers, while the claim specifies stripping
exactly a single layer — the two results differ at this input. -/
theorem c7_single_layer_counterexample :
    GeminiService.generateChatTitlePost (some ⟨"\"\"Nested\"\"", ""⟩) =
      .ok "Nested" ∧
    GeminiService.firstN (GeminiService.stripSingleLayer
      (GeminiService.goTrimSpace "\"\"Nested\"\"")) 100 = "\"Nested\"" ∧
    ("Nested" : String) ≠ "\"Nested\"" :=
  ⟨rfl, rfl, by decide⟩

/-- C2 (amended): only `GenerateChatTitle` checks the credential: with
`GEMINI_API_KEY` absent it fails with the missing-credential configuration
error regardless of every later oracle — hence before the URL is built and
before any network exchange — while `Stream` performs no credential check in
either mode: for any environment a streaming call proceeds to the provider
exchange, and a non-streaming (single-shot) call likewise proceeds, returning
the provider answer whenever the exchange succeeds. -/
theorem c2_only_title_checks_credential (env : String → String)
    (model chatText chatUuid freshUuid : String)
    (payloadRes : Except String Unit) (newReqErr : Option String)
    (decode : String → Except String GeminiService.ResponseBody)
    (transport : GeminiService.TransportResult)
    (parse : String → String → String)
    (sdo : Except String (List GeminiService.ReadEvent))
    (isFlusher : Bool) (regenerate : Bool)
    (hk : env "GEMINI_API_KEY" = "") :
    GeminiService.GenerateChatTitle env model chatText payloadRes newReqErr
        decode transport =
      .ok (.error (GeminiService.ErrInternalUnexpected.WithMessage
        "GEMINI_API_KEY environment variable not set")) ∧
    GeminiService.Stream env (.ok ()) (.ok ()) none parse decode transport sdo
        isFlusher model chatUuid freshUuid regenerate true =
      .ok (GeminiService.handleStreamResponse parse sdo isFlusher
        (if !regenerate then freshUuid else chatUuid)) ∧
    (∀ a : GeminiService.LLMAnswer,
      GeminiService.handleRegularResponse decode transport = .ok (some a, none) →
      GeminiService.Stream env (.ok ()) (.ok ()) none parse decode transport sdo
          isFlusher model chatUuid freshUuid regenerate false =
        .ok ⟨some { a with
            AnswerId := if !regenerate then freshUuid else chatUuid }, none,
          [((if !regenerate then freshUuid else chatUuid), a.Answer)]⟩) := by
  refine ⟨?_, rfl, ?_⟩
  · simp [GeminiService.GenerateChatTitle, hk]
  · intro a ha
    simp only [GeminiService.Stream, ha]
    rfl

/-- C2 witness: concrete instantiation with the key absent, exercising the
title flow, the streaming mode and the single-shot mode. -/
theorem c2_only_title_checks_credential_witness :
    GeminiService.GenerateChatTitle (fun _ => "") "gemini-pro" "hello" (.ok ())
        none (fun _ => .ok ⟨[⟨⟨[⟨"hi"⟩]⟩⟩]⟩) (.response 200 "resp" none) =
      .ok (.error (GeminiService.ErrInternalUnexpected.WithMessage
        "GEMINI_API_KEY environment variable not set")) ∧
    GeminiService.Stream (fun _ => "") (.ok ()) (.ok ()) none (fun l a => a ++ l)
        (fun _ => .ok ⟨[⟨⟨[⟨"hi"⟩]⟩⟩]⟩) (.response 200 "resp" none) (.ok []) true
        "gemini-pro" "cu" "fresh" false true =
      .ok (GeminiService.handleStreamResponse (fun l a => a ++ l) (.ok []) true
        (if !false then "fresh" else "cu")) ∧
    GeminiService.Stream (fun _ => "") (.ok ()) (.ok ()) none (fun l a => a ++ l)
        (fun _ => .ok ⟨[⟨⟨[⟨"hi"⟩]⟩⟩]⟩) (.response 200 "resp" none) (.ok []) true
        "gemini-pro" "cu" "fresh" false false =
      .ok ⟨some ⟨"hi", (if !false then "fresh" else "cu")⟩, none,
        [((if !false then "fresh" else "cu"), "hi")]⟩ :=
  have h := c2_only_title_checks_credential (fun _ => "") "gemini-pro" "hello"
    "cu" "fresh" (.ok ()) none (fun _ => .ok ⟨[⟨⟨[⟨"hi"⟩]⟩⟩]⟩)
    (.response 200 "resp" none) (fun l a => a ++ l) (.ok []) true false rfl
  ⟨h.1, h.2.1, h.2.2 ⟨"hi", ""⟩ rfl⟩

/-- C2 (counterexample): with the credential absent, neither a streaming nor a
single-shot `Stream` invocation fails with a configuration error — both run
the provider exchange (and here complete successfully) — and `buildAPIURL`
still produces a URL in both shapes, with an empty key, rather than refusing. -/
theorem c2_stream_no_credential_check_counterexample :
    GeminiService.Stream (fun _ => "") (.ok ()) (.ok ()) none (fun l a => a ++ l)
        (fun _ => .error "e") (.doError "refused") (.ok []) true
        "gemini-pro" "cu" "fresh" false true =
      .ok ⟨some ⟨"", "fresh"⟩, none, []⟩ ∧
    GeminiService.Stream (fun _ => "") (.ok ()) (.ok ()) none (fun l a => a ++ l)
        (fun _ => .ok ⟨[⟨⟨[⟨"hi"⟩]⟩⟩]⟩) (.response 200 "resp" none) (.ok []) true
        "gemini-pro" "cu" "fresh" false false =
      .ok ⟨some ⟨"hi", "fresh"⟩, none, [("fresh", "hi")]⟩ ∧
    GeminiService.buildAPIURL (fun _ => "") "gemini-pro" true =
      "https://generativelanguage.googleapis.com/v1beta/models/gemini-pro:streamGenerateContent?alt=sse&key=" ∧
    GeminiService.buildAPIURL (fun _ => "") "gemini-pro" false =
      "https://generativelanguage.googleapis.com/v1beta/models/gemini-pro:generateContent?key=" :=
  ⟨rfl, rfl, by decide, by decide⟩
/-- C6 (amended): across all four operations — `Stream` in either mode,
`handleRegularResponse`, `handleStreamResponse` and `GenerateChatTitle` —
error messages are drawn from fixed constant strings (plus the numeric status
code), and debug details are copied verbatim from the chat-files fetch error
text, the payload-generation error text, the request-construction error text,
the transport error text, the raw response body, the body-read / decode /
stream-read error texts, or are empty — so the key can appear in a produced
error only if it already appears in one of those input strings or constants.
No scrubbing is performed, and the counterexample shows the transport error
text does carry the key in practice, because Go transport errors quote the
request URL into which `buildAPIURL` injected the key (the request-construction
error text quotes the same URL). -/
theorem c6_no_secret_beyond_inputs (key : String) (env : String → String)
    (decode : String → Except String GeminiService.ResponseBody)
    (t : GeminiService.TransportResult) (parse : String → String → String)
    (sdo : Except String (List GeminiService.ReadEvent)) (isFlusher : Bool)
    (answerID : String) (chatFilesRes payloadRes : Except String Unit)
    (newReqErr : Option String) (model chatUuid freshUuid chatText : String)
    (regenerate stream : Bool)
    (hm : ∀ s ∈ GeminiService.allMessageStrings t, ¬ key.toList <:+: s.toList)
    (hd : ∀ s ∈ GeminiService.allDebugStrings chatFilesRes payloadRes newReqErr
        decode t sdo, ¬ key.toList <:+: s.toList) :
    (∀ a e, GeminiService.handleRegularResponse decode t = .ok (a, some e) →
      ¬ key.toList <:+: e.message.toList ∧ ¬ key.toList <:+: e.debugInfo.toList) ∧
    (∀ e, (GeminiService.handleStreamResponse parse sdo isFlusher answerID).error
        = some e →
      ¬ key.toList <:+: e.message.toList ∧ ¬ key.toList <:+: e.debugInfo.toList) ∧
    (∀ r e, GeminiService.Stream env chatFilesRes payloadRes newReqErr parse
        decode t sdo isFlusher model chatUuid freshUuid regenerate stream =
          .ok r → r.error = some e →
      ¬ key.toList <:+: e.message.toList ∧ ¬ key.toList <:+: e.debugInfo.toList) ∧
    (∀ e, GeminiService.GenerateChatTitle env model chatText payloadRes newReqErr
        decode t = .ok (.error e) →
      ¬ key.toList <:+: e.message.toList ∧ ¬ key.toList <:+: e.debugInfo.toList) := by
  have liftReg : ∀ e : GeminiService.APIError,
      e.message ∈ GeminiService.regMessageStrings t →
      e.debugInfo ∈ GeminiService.regDebugStrings decode t →
      ¬ key.toList <:+: e.message.toList ∧
        ¬ key.toList <:+: e.debugInfo.toList := by
    intro e h1 h2
    exact ⟨hm _ (by simp [GeminiService.allMessageStrings, List.mem_append, h1]),
      hd _ (by simp [GeminiService.allDebugStrings, List.mem_append, h2])⟩
  have liftStream : ∀ e : GeminiService.APIError,
      e.message ∈ GeminiService.streamMessageStrings →
      e.debugInfo ∈ GeminiService.streamDebugStrings sdo →
      ¬ key.toList <:+: e.message.toList ∧
        ¬ key.toList <:+: e.debugInfo.toList := by
    intro e h1 h2
    exact ⟨hm _ (by simp [GeminiService.allMessageStrings, List.mem_append, h1]),
      hd _ (by simp [GeminiService.allDebugStrings, List.mem_append, h2])⟩
  refine ⟨?_, ?_, ?_, ?_⟩
  · intro a e he
    obtain ⟨h1, h2⟩ := GeminiService.handleRegularResponse_error_mem decode t a e he
    exact liftReg e h1 h2
  · intro e he
    obtain ⟨h1, h2⟩ :=
      GeminiService.handleStreamResponse_error_mem parse sdo isFlusher answerID e he
    exact liftStream e h1 h2
  · intro r e hr he
    match chatFilesRes, hd, hr with
    | .error s, hd, hr =>
      simp only [GeminiService.Stream, GeminiService.GoResult.ok.injEq] at hr
      subst hr
      have he' : some ((GeminiService.ErrInternalUnexpected.WithMessage
          "Failed to get chat files").WithDebugInfo s) = some e := he
      obtain rfl := (Option.some.injEq _ _).mp he'
      exact ⟨hm _ (by simp [GeminiService.allMessageStrings, List.mem_append,
          GeminiService.APIError.WithMessage, GeminiService.APIError.WithDebugInfo,
          GeminiService.ErrInternalUnexpected]),
        hd _ (by simp [GeminiService.allDebugStrings, List.mem_append,
          GeminiService.APIError.WithMessage, GeminiService.APIError.WithDebugInfo,
          GeminiService.ErrInternalUnexpected])⟩
    | .ok u, hd, hr =>
      match payloadRes, hd, hr with
      | .error s, hd, hr =>
        simp only [GeminiService.Stream, GeminiService.GoResult.ok.injEq] at hr
        subst hr
        have he' : some ((GeminiService.ErrInternalUnexpected.WithMessage
            "Failed to generate Gemini payload").WithDebugInfo s) = some e := he
        obtain rfl := (Option.some.injEq _ _).mp he'
        exact ⟨hm _ (by simp [GeminiService.allMessageStrings, List.mem_append,
            GeminiService.APIError.WithMessage, GeminiService.APIError.WithDebugInfo,
            GeminiService.ErrInternalUnexpected]),
          hd _ (by simp [GeminiService.allDebugStrings, List.mem_append,
            GeminiService.APIError.WithMessage, GeminiService.APIError.WithDebugInfo,
            GeminiService.ErrInternalUnexpected])⟩
      | .ok v, hd, hr =>
        match newReqErr, hd, hr with
        | some s, hd, hr =>
          simp only [GeminiService.Stream, GeminiService.GoResult.ok.injEq] at hr
          subst hr
          have he' : some ((GeminiService.ErrInternalUnexpected.WithMessage
              "Failed to create Gemini API request").WithDebugInfo s) = some e := he
          obtain rfl := (Option.some.injEq _ _).mp he'
          exact ⟨hm _ (by simp [GeminiService.allMessageStrings, List.mem_append,
              GeminiService.APIError.WithMessage, GeminiService.APIError.WithDebugInfo,
              GeminiService.ErrInternalUnexpected]),
            hd _ (by simp [GeminiService.allDebugStrings, List.mem_append,
              GeminiService.APIError.WithMessage, GeminiService.APIError.WithDebugInfo,
              GeminiService.ErrInternalUnexpected])⟩
        | none, hd, hr =>
          match stream, hr with
          | true, hr =>
            simp only [GeminiService.Stream] at hr
            rw [if_pos trivial] at hr
            simp only [GeminiService.GoResult.ok.injEq] at hr
            subst hr
            obtain ⟨h1, h2⟩ := GeminiService.handleStreamResponse_error_mem parse
              sdo isFlusher (if !regenerate then freshUuid else chatUuid) e he
            exact liftStream e h1 h2
          | false, hr =>
            simp only [GeminiService.Stream] at hr
            rw [if_neg Bool.false_ne_true] at hr
            cases hreg : GeminiService.handleRegularResponse decode t with
            | panic m =>
              rw [hreg] at hr
              exact absurd hr (by simp)
            | ok p =>
              obtain ⟨llm, err⟩ := p
              match llm, hreg with
              | some a, hreg =>
                rw [hreg] at hr
                simp only [GeminiService.GoResult.ok.injEq] at hr
                subst hr
                have he' : err = some e := he
                rw [he'] at hreg
                obtain ⟨h1, h2⟩ :=
                  GeminiService.handleRegularResponse_error_mem decode t _ e hreg
                exact liftReg e h1 h2
              | none, hreg =>
                rw [hreg] at hr
                exact absurd hr (by simp)
  · intro e hgen
    simp only [GeminiService.GenerateChatTitle] at hgen
    split at hgen
    · simp only [GeminiService.GoResult.ok.injEq, Except.error.injEq] at hgen
      subst hgen
      exact ⟨hm _ (by simp [GeminiService.allMessageStrings, List.mem_append,
          GeminiService.APIError.WithMessage, GeminiService.ErrInternalUnexpected]),
        hd _ (by simp [GeminiService.allDebugStrings,
          GeminiService.regDebugStrings, List.mem_append,
          GeminiService.APIError.WithMessage, GeminiService.ErrInternalUnexpected])⟩
    · split at hgen
      · simp only [GeminiService.GoResult.ok.injEq, Except.error.injEq] at hgen
        subst hgen
        exact ⟨hm _ (by simp [GeminiService.allMessageStrings, List.mem_append,
            GeminiService.ErrValidationInvalidInput]),
          hd _ (by simp [GeminiService.allDebugStrings,
            GeminiService.regDebugStrings, List.mem_append,
            GeminiService.ErrValidationInvalidInput])⟩
      · match payloadRes, hd, hgen with
        | .error s, hd, hgen =>
          simp only [GeminiService.GoResult.ok.injEq, Except.error.injEq] at hgen
          subst hgen
          exact ⟨hm _ (by simp [GeminiService.allMessageStrings, List.mem_append,
              GeminiService.APIError.WithMessage, GeminiService.APIError.WithDebugInfo,
              GeminiService.ErrInternalUnexpected]),
            hd _ (by simp [GeminiService.allDebugStrings, List.mem_append,
              GeminiService.APIError.WithMessage, GeminiService.APIError.WithDebugInfo,
              GeminiService.ErrInternalUnexpected])⟩
        | .ok v, hd, hgen =>
          match newReqErr, hd, hgen with
          | some s, hd, hgen =>
            simp only [GeminiService.GoResult.ok.injEq, Except.error.injEq] at hgen
            subst hgen
            exact ⟨hm _ (by simp [GeminiService.allMessageStrings, List.mem_append,
                GeminiService.APIError.WithMessage, GeminiService.APIError.WithDebugInfo,
                GeminiService.ErrInternalUnexpected]),
              hd _ (by simp [GeminiService.allDebugStrings, List.mem_append,
                GeminiService.APIError.WithMessage, GeminiService.APIError.WithDebugInfo,
                GeminiService.ErrInternalUnexpected])⟩
          | none, hd, hgen =>
            cases hreg : GeminiService.handleRegularResponse decode t with
            | panic m =>
              rw [hreg] at hgen
              exact absurd hgen (by simp)
            | ok p =>
              obtain ⟨answer, err⟩ := p
              match err, hreg with
              | some er, hreg =>
                rw [hreg] at hgen
                simp only [GeminiService.GoResult.ok.injEq,
                  Except.error.injEq] at hgen
                subst hgen
                obtain ⟨h1, h2⟩ :=
                  GeminiService.handleRegularResponse_error_mem decode t _ _ hreg
                exact liftReg _ h1 h2
              | none, hreg =>
                rw [hreg] at hgen
                simp only [GeminiService.GoResult.ok.injEq] at hgen
                obtain ⟨hmsg, hdbg⟩ :=
                  GeminiService.generateChatTitlePost_error_mem answer e hgen
                refine ⟨hm _ ?_, hd _ ?_⟩
                · rcases hmsg with hmsg | hmsg <;>
                    simp [GeminiService.allMessageStrings, List.mem_append, hmsg]
                · rw [hdbg]
                  simp [GeminiService.allDebugStrings,
                    GeminiService.regDebugStrings, List.mem_append]


/-- C6 witness: with a key not occurring in any oracle string, the
transport-failure error of the single-shot path carries the key in neither its
message nor its debug detail. -/
theorem c6_no_secret_beyond_inputs_witness :
    ¬ "SECRET123".toList <:+: ("Failed to send Gemini API request").toList ∧
    ¬ "SECRET123".toList <:+: ("connection refused").toList := by
  have h := c6_no_secret_beyond_inputs "SECRET123" (fun _ => "k")
    (fun _ => .error "bad") (.doError "connection refused") (fun l a => a ++ l)
    (.ok [GeminiService.ReadEvent.err "reset"]) true "id" (.ok ()) (.ok ()) none
    "gemini-pro" "cu" "fresh" "hello" false false (by decide) (by decide)
  exact h.1 none _ rfl

set_option maxRecDepth 40000 in
/-- C6 (counterexample): `buildAPIURL` injects the key into the request URL;
Go transport errors quote that URL, and the transport-failure branch copies
the error text verbatim into the debug detail — so the key appears in the
debug detail of a produced RelayError, contradicting the claim. -/
theorem c6_key_in_debug_counterexample :
    GeminiService.buildAPIURL
        (fun v => if v = "GEMINI_API_KEY" then "SECRET123" else "")
        "gemini-pro" false =
      "https://generativelanguage.googleapis.com/v1beta/models/gemini-pro:generateContent?key=SECRET123" ∧
    GeminiService.handleRegularResponse (fun _ => .error "bad")
        (.doError ("Post \"https://generativelanguage.googleapis.com/v1beta/models/gemini-pro:generateContent?key=SECRET123\": dial tcp: connection refused")) =
      .ok (none, some ((GeminiService.ErrInternalUnexpected.WithMessage
        "Failed to send Gemini API request").WithDebugInfo
        "Post \"https://generativelanguage.googleapis.com/v1beta/models/gemini-pro:generateContent?key=SECRET123\": dial tcp: connection refused")) ∧
    "SECRET123".toList <:+:
      ("Post \"https://generativelanguage.googleapis.com/v1beta/models/gemini-pro:generateContent?key=SECRET123\": dial tcp: connection refused").toList := by
  refine ⟨by decide, rfl, by decide⟩
